import Mathlib

/-!
Shallow embedding of the surf-risk-analyzer risk-scoring pipeline.

The definitions below translate, function by function, the Python sources
`src/ml-model/predict_risk.py` (feature extraction, score synthesis, batch
update) and `src/ml-model/calculate_skill_risk.py` (skill-stratified
thresholds and the overall weighted score).  Machine floats are modelled by
exact rationals; Python's `round(x, 2)` (round-half-to-even) is modelled by
`pyRound2`; MongoDB collections are modelled by lists inside a `DB` record;
`datetime` values are integer timestamps in seconds, so "the last 24 hours"
is the interval `[now - 86400, now]`.  Fallible operations return `Option`
or `Except`.
-/

namespace SurfRisk

/-- Round a rational to the nearest integer, ties to even: the semantics of
Python's builtin `round` on exact values. -/
def roundHalfEven (q : ℚ) : ℤ :=
  if q - (⌊q⌋ : ℚ) < 1/2 then ⌊q⌋
  else if (1/2 : ℚ) < q - (⌊q⌋ : ℚ) then ⌊q⌋ + 1
  else if 2 ∣ ⌊q⌋ then ⌊q⌋ else ⌊q⌋ + 1

/-- Python's `round(q, 2)`. -/
def pyRound2 (q : ℚ) : ℚ := (roundHalfEven (q * 100) : ℚ) / 100

/-- numpy's `np.clip(x, lo, hi)`. -/
def clip (x lo hi : ℚ) : ℚ := min hi (max lo x)

/-- Lower-case a string (Python's `str.lower`). -/
def lowerStr (s : String) : String := ⟨s.data.map Char.toLower⟩

/-- Python's `pat in hay` substring test. -/
def strContains (hay pat : String) : Bool := decide (pat.data <:+: hay.data)

/-- One document of the `incidents` collection, with the fields the scoring
pipeline reads. -/
structure Incident where
  site : String
  severity : String
  incidentType : String
  month : Option Nat

/-- One document of the `surfspots` collection (the location registry). -/
structure SurfSpot where
  id : String
  name : String

/-- One document of the `hazardreports` collection.  `reportDate` is a
timestamp in seconds. -/
structure HazardReport where
  surfSpot : String
  reportDate : ℤ
  status : String
  severity : String

/-- The MongoDB database `surf-risk-analyzer`, as the three collections the
pipeline queries. -/
structure DB where
  incidents : List Incident
  surfSpots : List SurfSpot
  hazardReports : List HazardReport

/-- The fixed-schema feature record built by `calculate_spot_features`. -/
structure Features where
  total_incidents : ℚ
  fatal_count : ℕ
  severe_count : ℕ
  moderate_count : ℕ
  drowning_count : ℕ
  reef_cut_count : ℕ
  collision_count : ℕ
  rip_current_count : ℕ
  is_peak_season : ℕ
  incidents_per_year : ℚ

/-- Embedding of `calculate_spot_features` (predict_risk.py lines 19-76).
`now` is the current timestamp in seconds, `current_month` the current
calendar month; `yesterday = now - 86400` models `datetime.now() -
timedelta(days=1)`. -/
def calculate_spot_features (db : DB) (now : ℤ) (current_month : ℕ)
    (spot_name : String) : Features × ℚ :=
  let spot_incidents := db.incidents.filter (fun i => i.site == spot_name)
  let total_incidents := spot_incidents.length
  let fatal_count := (spot_incidents.filter (fun i => i.severity == "fatal")).length
  let severe_count := (spot_incidents.filter (fun i => i.severity == "severe")).length
  let moderate_count := (spot_incidents.filter (fun i => i.severity == "moderate")).length
  let incident_types := spot_incidents.map (fun i => i.incidentType)
  let drowning_count :=
    (incident_types.filter (fun t => strContains (lowerStr t) "drowning")).length
  let reef_cut_count :=
    (incident_types.filter (fun t =>
      strContains (lowerStr t) "reef" || strContains (lowerStr t) "cut")).length
  let collision_count :=
    (incident_types.filter (fun t => strContains (lowerStr t) "collision")).length
  let rip_current_count :=
    (incident_types.filter (fun t => strContains (lowerStr t) "rip")).length
  let yesterday := now - 86400
  let surf_spot := db.surfSpots.find? (fun s => s.name == spot_name)
  let recent_hazard_boost : ℚ :=
    match surf_spot with
    | none => 0
    | some sp =>
        let recent_hazards := db.hazardReports.filter (fun h =>
          h.surfSpot == sp.id && decide (yesterday ≤ h.reportDate)
            && h.status != "rejected")
        recent_hazards.foldl (fun acc h =>
          if h.severity == "high" then acc + 2
          else if h.severity == "medium" then acc + 1
          else acc + 1/2) 0
  let months := (spot_incidents.filterMap (fun i => i.month)).filter (fun m => m != 0)
  let is_peak_season := if months.contains current_month then 1 else 0
  ({ total_incidents := (total_incidents : ℚ) + recent_hazard_boost * 5
     fatal_count := fatal_count
     severe_count := severe_count
     moderate_count := moderate_count
     drowning_count := drowning_count
     reef_cut_count := reef_cut_count
     collision_count := collision_count
     rip_current_count := rip_current_count
     is_peak_season := is_peak_season
     incidents_per_year := (total_incidents : ℚ) / 10 }, recent_hazard_boost)

/-- The trained classifier's inference contract: a feature record in, a
predicted level and a probability vector out (`rf_model.predict` and
`rf_model.predict_proba`, opaque to the core). -/
abbrev Classifier := Features → ℕ × List ℚ

/-- Embedding of the bounds guard of `predict_risk_score` (predict_risk.py
lines 91-95).  `none` models an IndexError on an empty probability vector. -/
def select_confidence (risk_level_int : ℕ) (risk_level_proba : List ℚ) : Option ℚ :=
  if risk_level_int ≥ risk_level_proba.length then risk_level_proba[0]?
  else risk_level_proba[risk_level_int]?

/-- Embedding of `base_score = (risk_level_int + 1) * 3.33` (predict_risk.py
line 98). -/
def base_score_of (risk_level_int : ℕ) : ℚ := ((risk_level_int : ℚ) + 1) * 3.33

/-- Embedding of the score synthesis of `predict_risk_score` (predict_risk.py
lines 98-103): base score plus confidence adjustment plus hazard boost,
clipped to [0, 10]. -/
def synth_risk_score (risk_level_int : ℕ) (confidence hazard_boost : ℚ) : ℚ :=
  let confidence_adjustment := (confidence - 0.5) * 2
  clip (base_score_of risk_level_int + confidence_adjustment + hazard_boost) 0 10

/-- The dictionary returned by `predict_risk_score`. -/
structure Prediction where
  risk_score : ℚ
  risk_level : String
  flag_color : String
  confidence : ℚ
  has_recent_hazards : Bool

/-- Embedding of `predict_risk_score` (predict_risk.py lines 78-122), with
the classifier passed in as the opaque inference component. -/
def predict_risk_score (classify : Classifier) (db : DB) (now : ℤ)
    (current_month : ℕ) (spot_name : String) : Option Prediction :=
  let fb := calculate_spot_features db now current_month spot_name
  let features := fb.1
  let hazard_boost := fb.2
  let cl := classify features
  let risk_level_int := cl.1
  let risk_level_proba := cl.2
  (select_confidence risk_level_int risk_level_proba).map (fun confidence =>
    let risk_score := synth_risk_score risk_level_int confidence hazard_boost
    let lf :=
      if risk_score ≤ 3.3 then ("Low", "green")
      else if risk_score ≤ 6.6 then ("Medium", "yellow")
      else ("High", "red")
    { risk_score := pyRound2 risk_score
      risk_level := lf.1
      flag_color := lf.2
      confidence := pyRound2 confidence
      has_recent_hazards := decide (0 < hazard_boost) })

/-- Per-spot outcome of the batch updater: the prediction persisted, or the
caught error's message. -/
abbrev Outcome := Except String Prediction

/-- The body of the `for spot in surf_spots` loop of `update_all_risk_scores`
(predict_risk.py lines 130-149): score the spot, then persist; either step
may fail. -/
def try_update_spot (score : String → Except String Prediction)
    (persist : SurfSpot → Prediction → Except String Unit)
    (spot : SurfSpot) : Outcome :=
  match score spot.name with
  | .error e => .error e
  | .ok p =>
      match persist spot p with
      | .error e => .error e
      | .ok _ => .ok p

/-- Embedding of `update_all_risk_scores` (predict_risk.py lines 124-151):
iterate all spots, wrap each body in try/except, record the per-spot outcome
and keep going. -/
def update_all_risk_scores (score : String → Except String Prediction)
    (persist : SurfSpot → Prediction → Except String Unit) :
    List SurfSpot → List (String × Outcome)
  | [] => []
  | spot :: rest =>
      (spot.name, try_update_spot score persist spot)
        :: update_all_risk_scores score persist rest

/-- One entry of the hard-coded `RISK_DATA` table (calculate_skill_risk.py
lines 17-30). -/
structure SpotData where
  total : ℕ
  advanced : ℕ
  beginner : ℕ
  intermediate : ℕ

/-- Embedding of `RISK_DATA` (calculate_skill_risk.py lines 17-30). -/
def RISK_DATA : List (String × SpotData) :=
  [("Hikkaduwa", ⟨425, 20, 142, 50⟩),
   ("Matara", ⟨324, 5, 124, 14⟩),
   ("Trincomalee", ⟨298, 5, 74, 19⟩),
   ("Arugam Bay", ⟨293, 50, 69, 34⟩),
   ("Unawatuna", ⟨292, 45, 102, 33⟩),
   ("Midigama", ⟨256, 44, 63, 68⟩),
   ("Point Pedro", ⟨239, 0, 82, 0⟩),
   ("Ahangama", ⟨237, 31, 66, 54⟩),
   ("Mirissa", ⟨224, 32, 55, 81⟩),
   ("Kalpitiya", ⟨210, 0, 73, 0⟩),
   ("Thalpe", ⟨209, 40, 62, 23⟩),
   ("Weligama", ⟨200, 27, 87, 18⟩)]

/-- Embedding of `SKILL_THRESHOLDS` (calculate_skill_risk.py lines 33-46):
per-tier (low, medium) cutoffs. -/
def SKILL_THRESHOLDS : List (String × ℚ × ℚ) :=
  [("beginner", 5.0, 6.5),
   ("intermediate", 6.0, 7.2),
   ("advanced", 7.0, 8.0)]

/-- Embedding of `calculate_risk_score` (calculate_skill_risk.py lines
48-64): normalize the incident count against the tier-wide maximum, apply
the skill multiplier, cap at 10 and round to 2 decimals; a zero maximum
short-circuits to 0. -/
def calculate_risk_score (incidents_count max_incidents : ℚ)
    (skill_multiplier : ℚ := 1.0) : ℚ :=
  if max_incidents = 0 then 0
  else
    let base_score := incidents_count / max_incidents * 10
    let risk_score := base_score * skill_multiplier
    let capped := min 10 risk_score
    pyRound2 capped

/-- Embedding of `get_risk_level_and_flag` (calculate_skill_risk.py lines
66-78), with the dictionary lookup falling back to the beginner thresholds. -/
def get_risk_level_and_flag (score : ℚ) (skill_level : String) : String × String :=
  let thresholds :=
    (((SKILL_THRESHOLDS.find? (fun p => p.1 == skill_level)).map Prod.snd).getD (5.0, 6.5))
  if score ≤ thresholds.1 then ("Low", "green")
  else if score ≤ thresholds.2 then ("Medium", "yellow")
  else ("High", "red")

/-- Embedding of the overall-risk computation inside
`calculate_skill_based_risks` (calculate_skill_risk.py lines 131-147): the
weighted average of the three per-tier scores, classified with the beginner
thresholds, with the stored score rounded to 2 decimals. -/
def overall_block (beginner_score intermediate_score advanced_score : ℚ) :
    ℚ × String × String :=
  let overall_score :=
    beginner_score * 0.5 + intermediate_score * 0.3 + advanced_score * 0.2
  let lf := get_risk_level_and_flag overall_score "beginner"
  (pyRound2 overall_score, lf.1, lf.2)

/-- Per-tier block of a skill-based risk result. -/
structure TierRisk where
  incidents : ℕ
  score : ℚ
  level : String
  flag : String

/-- One element of the list returned by `calculate_skill_based_risks`. -/
structure SpotRiskResult where
  spot_name : String
  total_incidents : ℕ
  overall : ℚ × String × String
  beginner : TierRisk
  intermediate : TierRisk
  advanced : TierRisk

/-- The body of the `for spot_name, data in RISK_DATA.items()` loop of
`calculate_skill_based_risks` (calculate_skill_risk.py lines 99-169), with
the fixed skill multipliers of lines 103-105. -/
def skill_result_for_spot (spot_name : String) (data : SpotData)
    (max_beginner max_intermediate max_advanced : ℕ) : SpotRiskResult :=
  let beginner_multiplier : ℚ := 1.5
  let intermediate_multiplier : ℚ := 1.0
  let advanced_multiplier : ℚ := 0.7
  let beginner_score :=
    calculate_risk_score data.beginner max_beginner beginner_multiplier
  let intermediate_score :=
    calculate_risk_score data.intermediate max_intermediate intermediate_multiplier
  let advanced_score :=
    calculate_risk_score data.advanced max_advanced advanced_multiplier
  let blf := get_risk_level_and_flag beginner_score "beginner"
  let ilf := get_risk_level_and_flag intermediate_score "intermediate"
  let alf := get_risk_level_and_flag advanced_score "advanced"
  { spot_name := spot_name
    total_incidents := data.total
    overall := overall_block beginner_score intermediate_score advanced_score
    beginner := ⟨data.beginner, beginner_score, blf.1, blf.2⟩
    intermediate := ⟨data.intermediate, intermediate_score, ilf.1, ilf.2⟩
    advanced := ⟨data.advanced, advanced_score, alf.1, alf.2⟩ }

/-- Embedding of `calculate_skill_based_risks` (calculate_skill_risk.py
lines 80-178): tier-wide maxima over `RISK_DATA`, then one result per spot. -/
def calculate_skill_based_risks : List SpotRiskResult :=
  let max_beginner := (RISK_DATA.map (fun p => p.2.beginner)).foldl max 0
  let max_intermediate := (RISK_DATA.map (fun p => p.2.intermediate)).foldl max 0
  let max_advanced := (RISK_DATA.map (fun p => p.2.advanced)).foldl max 0
  RISK_DATA.map (fun p =>
    skill_result_for_spot p.1 p.2 max_beginner max_intermediate max_advanced)

/-- Weight contributed by one recent hazard report to the recency boost
(the if-chain of predict_risk.py lines 49-55, as a function). -/
def hazard_weight (h : HazardReport) : ℚ :=
  if h.severity == "high" then 2
  else if h.severity == "medium" then 1
  else 1/2

/-- A database whose location registry has no record for the spot "Mirissa",
although an incident for it exists. -/
def unknownSpotDB : DB :=
  ⟨[⟨"Mirissa", "severe", "drowning accident", some 5⟩], [], []⟩

/-- A classifier stub with a fixed output, standing in for the trained
model's inference contract. -/
def constClassifier : Classifier := fun _ => (1, [1/4, 1/2, 1/4])

/-- A database holding one historical incident for "Hikkaduwa", its registry
record, and one non-rejected high-severity hazard report dated within the
last 24 hours of timestamp 1000. -/
def hazardDB : DB :=
  ⟨[⟨"Hikkaduwa", "moderate", "Rip current drowning", some 6⟩],
   [⟨"spot1", "Hikkaduwa"⟩],
   [⟨"spot1", 999, "approved", "high"⟩]⟩

/-! ### General lemmas about the helpers -/

theorem roundHalfEven_of_lt_half (n : ℤ) (q : ℚ) (h1 : (n : ℚ) ≤ q)
    (h2 : q < (n : ℚ) + 1/2) : roundHalfEven q = n := by
  have hf : ⌊q⌋ = n := Int.floor_eq_iff.mpr ⟨h1, by linarith⟩
  rw [roundHalfEven, hf, if_pos (by linarith : q - (n : ℚ) < 1/2)]

theorem roundHalfEven_of_gt_half (n : ℤ) (q : ℚ) (h1 : (n : ℚ) + 1/2 < q)
    (h2 : q < (n : ℚ) + 1) : roundHalfEven q = n + 1 := by
  have hf : ⌊q⌋ = n := Int.floor_eq_iff.mpr ⟨by linarith, h2⟩
  rw [roundHalfEven, hf, if_neg (by push_neg; linarith : ¬ (q - (n : ℚ) < 1/2)),
    if_pos (by linarith : (1/2 : ℚ) < q - (n : ℚ))]

theorem roundHalfEven_intCast (n : ℤ) : roundHalfEven (n : ℚ) = n := by
  apply roundHalfEven_of_lt_half <;> norm_num

theorem pyRound2_eq_down (q : ℚ) (n : ℤ) (h1 : (n : ℚ) ≤ q * 100)
    (h2 : q * 100 < (n : ℚ) + 1/2) : pyRound2 q = (n : ℚ) / 100 := by
  rw [pyRound2, roundHalfEven_of_lt_half n _ h1 h2]

theorem pyRound2_eq_up (q : ℚ) (n : ℤ) (h1 : (n : ℚ) + 1/2 < q * 100)
    (h2 : q * 100 < (n : ℚ) + 1) : pyRound2 q = ((n : ℚ) + 1) / 100 := by
  rw [pyRound2, roundHalfEven_of_gt_half n _ h1 h2]; push_cast; ring

theorem pyRound2_eq_self (q : ℚ) (n : ℤ) (h : q * 100 = (n : ℚ)) : pyRound2 q = q := by
  rw [pyRound2, h, roundHalfEven_intCast, ← h]; ring

theorem foldl_hazard_boost (l : List HazardReport) (init : ℚ) :
    l.foldl (fun acc h =>
      if h.severity == "high" then acc + 2
      else if h.severity == "medium" then acc + 1
      else acc + 1/2) init = init + (l.map hazard_weight).sum := by
  induction l generalizing init with
  | nil => simp
  | cons h t ih =>
      simp only [List.foldl_cons, List.map_cons, List.sum_cons, ih, hazard_weight]
      split
      · ring
      · split
        · ring
        · ring

theorem select_confidence_isSome (L : ℕ) (P : List ℚ) (hne : P ≠ []) :
    (select_confidence L P).isSome = true := by
  have hlen : 0 < P.length := List.length_pos.mpr hne
  rw [select_confidence]
  split
  · rw [List.getElem?_eq_getElem hlen]; rfl
  · rename_i h
    push_neg at h
    rw [List.getElem?_eq_getElem h]; rfl

/-! ### Claim theorems -/

/-- C1: for every predicted level in {0,1,2}, every confidence, and every
recency boost ≥ 0, the synthesized risk score equals
clamp(base_score + (confidence - 0.5) * 2 + recency_boost, 0, 10), and
therefore always lies in [0, 10]. -/
theorem C1_risk_score_clamped (level : ℕ) (confidence boost : ℚ)
    (hlevel : level ≤ 2) (hboost : 0 ≤ boost) :
    synth_risk_score level confidence boost
      = clip (base_score_of level + (confidence - 0.5) * 2 + boost) 0 10 ∧
    0 ≤ synth_risk_score level confidence boost ∧
    synth_risk_score level confidence boost ≤ 10 := by
  refine ⟨rfl, ?_, ?_⟩
  · exact le_min (by norm_num) (le_max_left 0 _)
  · exact min_le_left _ _

/-- Witness for C1 at level 2, confidence 0 (confidence adjustment -1) and a
large recency boost of 100. -/
theorem C1_witness :
    2 ≤ 2 ∧ (0 : ℚ) ≤ 100 ∧
      (synth_risk_score 2 0 100
          = clip (base_score_of 2 + ((0 : ℚ) - 0.5) * 2 + 100) 0 10 ∧
       0 ≤ synth_risk_score 2 0 100 ∧
       synth_risk_score 2 0 100 ≤ 10) :=
  ⟨le_refl 2, by norm_num, C1_risk_score_clamped 2 0 100 (le_refl 2) (by norm_num)⟩

/-- C2 counterexample: at predicted level 2 the base score is 9.99, not the
10.0 the claim states. -/
theorem C2_counterexample : base_score_of 2 = 9.99 ∧ (9.99 : ℚ) ≠ 10 := by
  constructor
  · norm_num [base_score_of]
  · norm_num

/-- C2 amended: before any adjustment the base score is exactly 3.33 for
level 0, 6.66 for level 1 and 9.99 for level 2. -/
theorem C2_amended_base_scores :
    base_score_of 0 = 3.33 ∧ base_score_of 1 = 6.66 ∧ base_score_of 2 = 9.99 := by
  refine ⟨?_, ?_, ?_⟩ <;> norm_num [base_score_of]

/-- C3 counterexample: with a database whose registry has no record for
"Mirissa", single-location scoring succeeds (no error is raised); the
missing record only makes the recency boost 0. -/
theorem C3_counterexample :
    unknownSpotDB.surfSpots.find? (fun s => s.name == "Mirissa") = none ∧
    (predict_risk_score constClassifier unknownSpotDB 1000000 5 "Mirissa").isSome
      = true ∧
    (calculate_spot_features unknownSpotDB 1000000 5 "Mirissa").2 = 0 :=
  ⟨rfl, rfl, rfl⟩

/-- C3 amended: when the location identifier has no matching record in the
location registry, single-location scoring does not fail; the absence only
affects the recency boost, which defaults to 0, and prediction succeeds
whenever the classifier returns a nonempty probability vector. -/
theorem C3_amended_missing_location (classify : Classifier) (db : DB) (now : ℤ)
    (current_month : ℕ) (name : String)
    (hmiss : db.surfSpots.find? (fun s => s.name == name) = none) :
    (calculate_spot_features db now current_month name).2 = 0 ∧
    ((classify (calculate_spot_features db now current_month name).1).2 ≠ [] →
      (predict_risk_score classify db now current_month name).isSome = true) := by
  constructor
  · simp only [calculate_spot_features, hmiss]
  · intro hne
    have hsome := select_confidence_isSome
      (classify (calculate_spot_features db now current_month name).1).1
      (classify (calculate_spot_features db now current_month name).1).2 hne
    obtain ⟨c, hc⟩ := Option.isSome_iff_exists.mp hsome
    rw [predict_risk_score, hc]
    rfl

/-- Witness for C3's amended theorem on a concrete database missing the
queried location. -/
theorem C3_witness :
    unknownSpotDB.surfSpots.find? (fun s => s.name == "Arugam Bay") = none ∧
    ((calculate_spot_features unknownSpotDB 999 4 "Arugam Bay").2 = 0 ∧
     ((constClassifier
        (calculate_spot_features unknownSpotDB 999 4 "Arugam Bay").1).2 ≠ [] →
      (predict_risk_score constClassifier unknownSpotDB 999 4 "Arugam Bay").isSome
        = true)) :=
  ⟨rfl, C3_amended_missing_location constClassifier unknownSpotDB 999 4 "Arugam Bay" rfl⟩

/-- C4: the overall score is the exact weighted average
beginner*0.5 + intermediate*0.3 + advanced*0.2, the overall level and flag
are derived from the unrounded overall score with the beginner thresholds,
rounding to 2 decimals touches only the stored score, and 7.5/7.5/3.0 gives
overall 6.6, classified High/red. -/
theorem C4_overall_weighted_average :
    (∀ b i a : ℚ, overall_block b i a
        = (pyRound2 (b * 0.5 + i * 0.3 + a * 0.2),
           get_risk_level_and_flag (b * 0.5 + i * 0.3 + a * 0.2) "beginner")) ∧
    (7.5 * 0.5 + 7.5 * 0.3 + 3.0 * 0.2 : ℚ) = 6.6 ∧
    overall_block 7.5 7.5 3.0 = (6.6, "High", "red") := by
  refine ⟨fun b i a => rfl, by norm_num, ?_⟩
  rw [show overall_block 7.5 7.5 3.0
      = (pyRound2 (7.5 * 0.5 + 7.5 * 0.3 + 3.0 * 0.2),
         get_risk_level_and_flag (7.5 * 0.5 + 7.5 * 0.3 + 3.0 * 0.2) "beginner")
    from rfl]
  rw [show (7.5 * 0.5 + 7.5 * 0.3 + 3.0 * 0.2 : ℚ) = 6.6 by norm_num]
  rw [pyRound2_eq_self 6.6 660 (by norm_num)]
  rw [show get_risk_level_and_flag 6.6 "beginner"
      = if (6.6 : ℚ) ≤ 5.0 then ("Low", "green")
        else if (6.6 : ℚ) ≤ 6.5 then ("Medium", "yellow")
        else ("High", "red") from rfl]
  norm_num

/-- C5: the threshold engine maps score ≤ low to Low/green,
low < score ≤ medium to Medium/yellow and score > medium to High/red with
cutoffs beginner (5.0, 6.5), intermediate (6.0, 7.2), advanced (7.0, 8.0);
for the beginner tier 5.0 is Low, 5.01 and 6.5 are Medium, 6.51 is High, and
in every tier the two cutoffs are strictly ordered. -/
theorem C5_threshold_mapping :
    (∀ s : ℚ, get_risk_level_and_flag s "beginner"
        = if s ≤ 5.0 then ("Low", "green")
          else if s ≤ 6.5 then ("Medium", "yellow") else ("High", "red")) ∧
    (∀ s : ℚ, get_risk_level_and_flag s "intermediate"
        = if s ≤ 6.0 then ("Low", "green")
          else if s ≤ 7.2 then ("Medium", "yellow") else ("High", "red")) ∧
    (∀ s : ℚ, get_risk_level_and_flag s "advanced"
        = if s ≤ 7.0 then ("Low", "green")
          else if s ≤ 8.0 then ("Medium", "yellow") else ("High", "red")) ∧
    get_risk_level_and_flag 5.0 "beginner" = ("Low", "green") ∧
    get_risk_level_and_flag 5.01 "beginner" = ("Medium", "yellow") ∧
    get_risk_level_and_flag 6.5 "beginner" = ("Medium", "yellow") ∧
    get_risk_level_and_flag 6.51 "beginner" = ("High", "red") ∧
    (5.0 : ℚ) < 6.5 ∧ (6.0 : ℚ) < 7.2 ∧ (7.0 : ℚ) < 8.0 := by
  have hb : ∀ s : ℚ, get_risk_level_and_flag s "beginner"
      = if s ≤ 5.0 then ("Low", "green")
        else if s ≤ 6.5 then ("Medium", "yellow") else ("High", "red") :=
    fun s => rfl
  refine ⟨hb, fun s => rfl, fun s => rfl, ?_, ?_, ?_, ?_, by norm_num, by norm_num,
    by norm_num⟩
  · rw [hb]; norm_num
  · rw [hb]; norm_num
  · rw [hb]; norm_num
  · rw [hb]; norm_num

/-- C6: with the location present in the registry, the recency boost is the
sum over the non-rejected hazard reports of the last 24 hours of 2.0 for
high severity, 1.0 for medium and 0.5 otherwise, and the total_incidents
feature is the raw historical incident count plus boost * 5. -/
theorem C6_recency_boost (db : DB) (now : ℤ) (current_month : ℕ) (name : String)
    (sp : SurfSpot) (hfound : db.surfSpots.find? (fun s => s.name == name) = some sp) :
    (calculate_spot_features db now current_month name).2
      = ((db.hazardReports.filter (fun h =>
            h.surfSpot == sp.id && decide (now - 86400 ≤ h.reportDate)
              && h.status != "rejected")).map hazard_weight).sum ∧
    (calculate_spot_features db now current_month name).1.total_incidents
      = ((db.incidents.filter (fun i => i.site == name)).length : ℚ)
        + (calculate_spot_features db now current_month name).2 * 5 := by
  refine ⟨?_, rfl⟩
  simp only [calculate_spot_features, hfound]
  rw [foldl_hazard_boost, zero_add]

/-- Witness for C6: one non-rejected high-severity report inside the 24-hour
window over one raw incident gives boost 2 and total_incidents 1 + 10. -/
theorem C6_witness :
    hazardDB.surfSpots.find? (fun s => s.name == "Hikkaduwa")
      = some ⟨"spot1", "Hikkaduwa"⟩ ∧
    ((calculate_spot_features hazardDB 1000 6 "Hikkaduwa").2
        = ((hazardDB.hazardReports.filter (fun h =>
              h.surfSpot == SurfSpot.id ⟨"spot1", "Hikkaduwa"⟩
                && decide ((1000 : ℤ) - 86400 ≤ h.reportDate)
                && h.status != "rejected")).map hazard_weight).sum ∧
     (calculate_spot_features hazardDB 1000 6 "Hikkaduwa").1.total_incidents
        = ((hazardDB.incidents.filter (fun i => i.site == "Hikkaduwa")).length : ℚ)
          + (calculate_spot_features hazardDB 1000 6 "Hikkaduwa").2 * 5) ∧
    (calculate_spot_features hazardDB 1000 6 "Hikkaduwa").2 = 2 ∧
    (calculate_spot_features hazardDB 1000 6 "Hikkaduwa").1.total_incidents = 11 := by
  have h2 : (calculate_spot_features hazardDB 1000 6 "Hikkaduwa").2 = (0 : ℚ) + 2 := rfl
  have h1 : (calculate_spot_features hazardDB 1000 6 "Hikkaduwa").1.total_incidents
      = ((1 : ℕ) : ℚ) + ((0 : ℚ) + 2) * 5 := rfl
  refine ⟨rfl, C6_recency_boost hazardDB 1000 6 "Hikkaduwa" ⟨"spot1", "Hikkaduwa"⟩ rfl,
    ?_, ?_⟩
  · rw [h2]; norm_num
  · rw [h1]; norm_num

/-- C7: whenever the probability vector is nonempty, the confidence lookup
never fails: an out-of-range predicted level falls back to the probability
at index 0, and an in-range one selects the probability at its own index. -/
theorem C7_confidence_fallback (L : ℕ) (P : List ℚ) (hne : P ≠ []) :
    (P.length ≤ L → select_confidence L P = P[0]?) ∧
    (L < P.length → select_confidence L P = P[L]?) ∧
    (select_confidence L P).isSome = true := by
  refine ⟨fun h => ?_, fun h => ?_, select_confidence_isSome L P hne⟩
  · rw [select_confidence, if_pos h]
  · rw [select_confidence, if_neg (by omega)]

/-- Witness for C7: predicted level 2 with a probability vector of length 2
falls back to the probability at index 0 without failing. -/
theorem C7_witness :
    ([0.3, 0.7] : List ℚ) ≠ [] ∧
    ((([0.3, 0.7] : List ℚ).length ≤ 2 →
        select_confidence 2 [0.3, 0.7] = ([0.3, 0.7] : List ℚ)[0]?) ∧
     (2 < ([0.3, 0.7] : List ℚ).length →
        select_confidence 2 [0.3, 0.7] = ([0.3, 0.7] : List ℚ)[2]?) ∧
     (select_confidence 2 [0.3, 0.7]).isSome = true) ∧
    select_confidence 2 [0.3, 0.7] = some 0.3 :=
  ⟨by simp, C7_confidence_fallback 2 [0.3, 0.7] (by simp), rfl⟩

/-- C8 counterexample: with incident count 1, maximum 3 and multiplier 1 the
product 10 * (1/3) * 1 is at most 10, yet the computed score is the rounded
3.33, not the product itself as the claim states. -/
theorem C8_counterexample :
    calculate_risk_score 1 3 1 = 3.33 ∧
    10 * ((1 : ℚ) / 3) * 1 ≤ 10 ∧
    calculate_risk_score 1 3 1 ≠ 10 * ((1 : ℚ) / 3) * 1 := by
  have hval : calculate_risk_score 1 3 1 = 3.33 := by
    rw [calculate_risk_score, if_neg (by norm_num : ¬ (3 : ℚ) = 0)]
    have hmin : min (10 : ℚ) ((1 : ℚ) / 3 * 10 * 1) = (1 : ℚ) / 3 * 10 * 1 :=
      min_eq_right (by norm_num)
    simp only [hmin]
    rw [pyRound2_eq_down _ 333 (by norm_num) (by norm_num)]
    norm_num
  refine ⟨hval, by norm_num, ?_⟩
  rw [hval]; norm_num

/-- C8 amended: for a positive tier-wide maximum the per-tier score equals
the clamp of the normalized product at 10, rounded half-to-even to 2
decimals; when the product is at most 10 it is the rounded product, and when
it is at least 10 it is exactly 10. -/
theorem C8_amended_rounded_clamp (c m mult : ℚ) (hm : 0 < m) :
    calculate_risk_score c m mult = pyRound2 (min 10 (c / m * 10 * mult)) ∧
    (c / m * 10 * mult ≤ 10 →
      calculate_risk_score c m mult = pyRound2 (c / m * 10 * mult)) ∧
    (10 ≤ c / m * 10 * mult → calculate_risk_score c m mult = 10) := by
  have hne : ¬ m = 0 := ne_of_gt hm
  refine ⟨?_, fun h => ?_, fun h => ?_⟩
  · rw [calculate_risk_score, if_neg hne]
  · simp only [calculate_risk_score, if_neg hne]
    rw [min_eq_right h]
  · simp only [calculate_risk_score, if_neg hne]
    rw [min_eq_left h]
    exact pyRound2_eq_self 10 1000 (by norm_num)

/-- Witness for C8's amended theorem at incident count 5, maximum 10,
multiplier 1. -/
theorem C8_witness :
    (0 : ℚ) < 10 ∧
    (calculate_risk_score 5 10 1 = pyRound2 (min 10 ((5 : ℚ) / 10 * 10 * 1)) ∧
     ((5 : ℚ) / 10 * 10 * 1 ≤ 10 →
        calculate_risk_score 5 10 1 = pyRound2 ((5 : ℚ) / 10 * 10 * 1)) ∧
     (10 ≤ (5 : ℚ) / 10 * 10 * 1 → calculate_risk_score 5 10 1 = 10)) :=
  ⟨by norm_num, C8_amended_rounded_clamp 5 10 1 (by norm_num)⟩

/-- C9: the batch updater records one outcome per location, each outcome
depending only on that location's own scoring and persistence, so a failure
on one location never stops the iteration, and the updater's return type
carries every error inside the report rather than throwing it. -/
theorem C9_batch_isolation (score : String → Except String Prediction)
    (persist : SurfSpot → Prediction → Except String Unit)
    (spots : List SurfSpot) :
    update_all_risk_scores score persist spots
      = spots.map (fun s => (s.name, try_update_spot score persist s)) ∧
    (update_all_risk_scores score persist spots).length = spots.length := by
  have h : ∀ l : List SurfSpot, update_all_risk_scores score persist l
      = l.map (fun s => (s.name, try_update_spot score persist s)) := by
    intro l
    induction l with
    | nil => rfl
    | cons s t ih => simp [update_all_risk_scores, ih]
  exact ⟨h spots, by rw [h spots, List.length_map]⟩

/-- C10: the normalization guard: whenever the tier-wide maximum incident
count is 0 the per-tier score is 0, so the division by the maximum is never
reached with a zero divisor. -/
theorem C10_zero_max_guard (c mult : ℚ) : calculate_risk_score c 0 mult = 0 := by
  rw [calculate_risk_score, if_pos rfl]

end SurfRisk
